import Mathlib

/-!
Verification of the servitor web toolkit: a shallow embedding of the
repository's Python sources (connection.py, response.py, routing.py,
application.py) into Lean 4, together with theorems settling the frozen
claims about the specification.

Modelling conventions:
* Byte strings (`bytes`) are modelled as Lean `String`s; all inputs used by
  the claims are ASCII, where the two coincide, and `str.encode()` /
  `bytes.decode("ascii")` become the identity.
* The two injected asynchronous I/O handles are made explicit: outbound
  `asgi_send` calls are accumulated in an `events` trace field on the
  connection, and the inbound `asgi_receive` stream is passed to `body_iter`
  as a list of pending protocol events.
* Python exceptions (`ValueError`, `NotImplementedError`, `KeyError`)
  become `Except String` results carrying the exception message.
* Werkzeug's `Headers` multi-map and Python `dict`s become association
  lists; `Headers.add` appends, `dict.__setitem__` replaces-or-appends.
-/

/-- Scope record: the fields of the ASGI `scope` dict consumed by the code.
`headers` models the decoded `(name, value)` byte pairs of
`scope["headers"]`; ASCII decoding is the identity here. -/
structure Scope where
  type : String
  method : String
  path : String
  query_string : String
  headers : List (String × String)
deriving DecidableEq

/-- Outbound ASGI events emitted through `asgi_send` (connection.py):
`http.response.start` with status and header list, and
`http.response.body` with body bytes and the `more_body` flag. -/
inductive OutEvent where
  | responseStart (status : Nat) (headers : List (String × String))
  | responseBody (body : String) (more_body : Bool)
deriving DecidableEq

/-- Inbound ASGI events read through `asgi_receive` (connection.py
`body_iter`): `http.request` carrying `body` bytes (dict default `b""`)
and `more_body` (dict default `False`, and `or False` coerces truthiness),
`http.disconnect`, and any other message type (ignored by the loop). -/
inductive InEvent where
  | request (body : String) (more_body : Bool)
  | disconnect
  | other
deriving DecidableEq

/-- `ConnectionType` enum from connection.py. -/
inductive ConnectionType where
  | HTTP
  | WebSocket
deriving DecidableEq

/-- `Connection.__init__` state (connection.py lines 29-41) plus the
`events` trace of outbound `asgi_send` calls.  `resp_headers` is werkzeug's
`Headers` (ordered multi-map, modelled as an association list that may
repeat keys); `resp_cookies` is a `SimpleCookie` modelled as a name→value
list (cookie attributes are third-party rendering, unused by the claims). -/
structure Connection where
  scope : Scope
  started : Bool
  finished : Bool
  resp_headers : List (String × String)
  resp_cookies : List (String × String)
  resp_status_code : Option Nat
  http_body : String
  http_has_more_body : Bool
  http_received_body_length : Nat
  events : List OutEvent
deriving DecidableEq

/-- `Connection.__init__`: fresh connection for a scope. -/
def Connection.fresh (scope : Scope) : Connection :=
  { scope := scope
    started := false
    finished := false
    resp_headers := []
    resp_cookies := []
    resp_status_code := none
    http_body := ""
    http_has_more_body := true
    http_received_body_length := 0
    events := [] }

/-- `Connection.type` (cached property): `WebSocket` iff
`scope.get("type") == "websocket"`, else `HTTP`.  The property is pure, so
memoisation is semantically invisible. -/
def Connection.type (c : Connection) : ConnectionType :=
  if c.scope.type = "websocket" then ConnectionType.WebSocket else ConnectionType.HTTP

/-- `Connection.req_headers` (cached property): the decoded scope header
pairs in a werkzeug `Headers` multi-map; decoding is the identity in the
model, insertion order is kept. -/
def Connection.req_headers (c : Connection) : List (String × String) :=
  c.scope.headers

/-- ASCII lower-casing of a character (the header names compared
case-insensitively here are ASCII). -/
def lowerChar (ch : Char) : Char :=
  if 'A' ≤ ch ∧ ch ≤ 'Z' then Char.ofNat (ch.toNat + 32) else ch

/-- ASCII lower-casing of a string. -/
def lowerStr (s : String) : String :=
  String.mk (s.data.map lowerChar)

/-- Werkzeug `Headers.get`: first value whose key matches
case-insensitively, or `none`. -/
def headersGet (hs : List (String × String)) (k : String) : Option String :=
  (hs.find? (fun kv => lowerStr kv.1 = lowerStr k)).map (fun kv => kv.2)

/-- Python `dict` assignment `d[k] = v` on an association list: replace the
value at `k` if present (keys compared exactly, as for a plain dict),
otherwise append the new pair. -/
def dictSet {α : Type} (d : List (String × α)) (k : String) (v : α) :
    List (String × α) :=
  if d.any (fun kv => kv.1 = k) then
    d.map (fun kv => if kv.1 = k then (kv.1, v) else kv)
  else d ++ [(k, v)]

/-- Python `dict.get(k)` on an association list. -/
def dictGet {α : Type} (d : List (String × α)) (k : String) : Option α :=
  (d.find? (fun kv => kv.1 = k)).map (fun kv => kv.2)

/-- `Connection.put_resp_header`: werkzeug `Headers.add`, i.e. append (it
does not replace existing values for the key). -/
def put_resp_header (c : Connection) (k v : String) : Connection :=
  { c with resp_headers := c.resp_headers ++ [(k, v)] }

/-- `Connection.put_resp_cookie`: `SimpleCookie.__setitem__`, i.e.
set/overwrite by name. -/
def put_resp_cookie (c : Connection) (k v : String) : Connection :=
  { c with resp_cookies := dictSet c.resp_cookies k v }

/-- Record one `asgi_send` of an `http.response.body` event. -/
def emitBody (c : Connection) (data : String) (more : Bool) : Connection :=
  { c with events := c.events ++ [OutEvent.responseBody data more] }

/-- `Connection.start_resp` (connection.py lines 177-200): fails if already
started; `if not self.resp_status_code` (None and 0 are falsy) defaults
the status to 200; builds the header list from `resp_headers` followed by
one `Set-Cookie` per response cookie (`OutputString` rendered as
`key=value`; attribute serialization is third-party and unused here);
emits the `http.response.start` event; marks started. -/
def start_resp (c : Connection) : Except String Connection :=
  if c.started then Except.error "resp already started"
  else
    let st : Nat :=
      match c.resp_status_code with
      | none => 200
      | some 0 => 200
      | some s => s
    let headers :=
      c.resp_headers ++ c.resp_cookies.map (fun kv => ("Set-Cookie", kv.1 ++ "=" ++ kv.2))
    Except.ok
      { c with
        resp_status_code := some st
        started := true
        events := c.events ++ [OutEvent.responseStart st headers] }

mutual

/-- `Connection._http_send` (connection.py lines 132-151): if the response
has not started and this call finishes, set `content-length` to the
decimal byte length of the data, then start the response; emit the body
chunk with `more_body = True` (`data or b""` is the identity on the
model's strings); if finishing, invoke `finish`. -/
def http_send (c : Connection) (data : String) (finish : Bool) :
    Except String Connection := do
  let c ←
    if !c.started then
      let c := if finish then put_resp_header c "content-length" (toString data.length) else c
      start_resp c
    else Except.ok c
  let c := emitBody c data true
  if finish then Connection.finish c else Except.ok c

/-- `Connection.finish` (connection.py lines 153-175): for HTTP, fails if
already finished; if never started, force status 204 and start; emit the
final empty body chunk with `more_body = False`; mark finished.  For
WebSocket connections the operation is unimplemented (the close-event send
is commented out in the source). -/
def Connection.finish (c : Connection) : Except String Connection :=
  match c.type with
  | ConnectionType.HTTP =>
    if c.finished then Except.error "Connection already finished"
    else do
      let c ←
        if !c.started then start_resp { c with resp_status_code := some 204 }
        else Except.ok c
      Except.ok { emitBody c "" false with finished := true }
  | ConnectionType.WebSocket => Except.error "NotImplementedError"

end

/-- `Connection.send` (connection.py lines 112-130): fails if the
connection is finished; for HTTP, coerces text to bytes (identity in the
model) and performs the HTTP send sequence; for WebSocket it is
unimplemented. -/
def Connection.send (c : Connection) (data : String) (finish : Bool) :
    Except String Connection :=
  if c.finished then Except.error "No message can be sent when connection closed"
  else
    match c.type with
    | ConnectionType.HTTP => http_send c data finish
    | ConnectionType.WebSocket => Except.error "NotImplementedError"

/-- Example scope of a plain HTTP request, used to instantiate theorems. -/
def scope0 : Scope :=
  { type := "http", method := "GET", path := "/", query_string := "", headers := [] }

/-- Example of a connection whose response has been started with status
200 (the state right after a non-finishing first send), used to
instantiate theorems. -/
def exStartedConn : Connection :=
  { Connection.fresh scope0 with
    started := true
    resp_headers := []
    resp_status_code := some 200
    events := [OutEvent.responseStart 200 []] }

/-- `HttpResponse.__init__` (response.py lines 9-20): body (default empty),
optional bound connection, status code (default 200), optional header map
(a plain Python `dict`, so keys compare exactly). -/
structure HttpResponse where
  body : String
  connection : Option Connection
  status_code : Nat
  headers : Option (List (String × String))
deriving DecidableEq

/-- `HttpResponse.__await__` (response.py lines 22-29): fails with
"No connection" if unbound; sets the connection's `resp_status_code` to the
response's status code unconditionally; `if self.headers:` adds each
supplied header via `put_resp_header` (for `None` or an empty dict the loop
body never runs, so folding over `getD []` is equivalent); then delegates
to the connection's finishing send with the body. -/
def HttpResponse.await' (r : HttpResponse) : Except String Connection :=
  match r.connection with
  | none => Except.error "No connection"
  | some conn =>
    let conn := { conn with resp_status_code := some r.status_code }
    let conn :=
      (r.headers.getD []).foldl (fun c kv => put_resp_header c kv.1 kv.2) conn
    Connection.send conn r.body true

/-- `JsonResponse.__init__` (response.py lines 33-41).  `data_json` stands
for `json.dumps(data)` (the serializer is the standard library, external
per the spec).  `headers_kwarg` models whether a `headers=` keyword
argument was passed in `**kwargs` and with what dict.  The source reads
`headers = kwargs.get("headers")`, replaces `None` with a new empty dict,
and sets `headers["content-type"] = "application/json"` by mutation; it
then calls `super().__init__(body, connection, *args, **kwargs)`.  The
mutation reaches the parent constructor only when the dict was aliased
inside `kwargs` (i.e. a `headers=` argument was actually passed); when no
`headers` keyword was given, the freshly created dict is a discarded local
and the parent receives `headers=None`. -/
def JsonResponse (data_json : String) (connection : Option Connection)
    (status_code : Nat) (headers_kwarg : Option (List (String × String))) :
    HttpResponse :=
  let headers := match headers_kwarg with
    | none => []
    | some h => h
  let headers := dictSet headers "content-type" "application/json"
  { body := data_json
    connection := connection
    status_code := status_code
    headers :=
      match headers_kwarg with
      | some _ => some headers
      | none => none }

/-- A handler function (routing.py).  `id` is an object-identity token:
the source compares handlers with `is` (object identity), so two distinct
handler objects carry distinct `id`s even if behaviourally equal.  `name`
is the function's `__name__`. -/
structure Handler where
  id : Nat
  name : String
deriving DecidableEq

/-- A werkzeug `Rule` as constructed by `add_route`: the rule string, the
endpoint (route name) and the optional method set. -/
structure Rule where
  rule_string : String
  endpoint : String
  methods : Option (List String)
deriving DecidableEq

/-- `Router.__init__` (routing.py lines 12-15): `url_map` is werkzeug's
`Map`, modelled as the list of rules in insertion order (`Map.add`
appends); `endpoint_to_handler` is a dict from route name to handler. -/
structure Router where
  url_map : List Rule
  endpoint_to_handler : List (String × Handler)
deriving DecidableEq

/-- Fresh `Router()`. -/
def Router.init : Router :=
  { url_map := [], endpoint_to_handler := [] }

/-- `Router.add_route` (routing.py lines 30-44): `if not name` (None or
empty string) falls back to the handler's `__name__`; fails with
`Duplicated route name` when a *different* handler object is already
registered under the name; otherwise appends a new `Rule` to the pattern
map and records name → handler (also on re-registration of the identical
handler). -/
def add_route (r : Router) (rule_string : String) (handler : Handler)
    (name : Option String) (methods : Option (List String)) :
    Except String Router :=
  let nm := match name with
    | none => handler.name
    | some s => if s = "" then handler.name else s
  let add : Router :=
    { url_map := r.url_map ++ [{ rule_string := rule_string, endpoint := nm, methods := methods }]
      endpoint_to_handler := dictSet r.endpoint_to_handler nm handler }
  match dictGet r.endpoint_to_handler nm with
  | some existing =>
    if existing ≠ handler then Except.error ("Duplicated route name: " ++ nm)
    else Except.ok add
  | none => Except.ok add

/-- Outcome of `url_map.bind(...).match(return_rule=True, method=...)`
(routing.py lines 56-60).  URL matching itself is werkzeug (external per
the spec, see the tagged-union design note); the router's dispatch is
driven by which of the four outcomes the match produced for the
connection. -/
inductive MatchOutcome where
  | success (endpoint : String) (args : List (String × String))
  | redirect (new_url : String)
  | methodNotAllowed
  | notFound
deriving DecidableEq

/-- Semantics environment for handler invocation: maps a handler object
and the extracted path variables to its effect on the connection and its
(optional) returned HttpResponse value. -/
abbrev HandlerSem :=
  Handler → List (String × String) → Connection → Except String (Connection × Option HttpResponse)

/-- `Router.__call__` (routing.py lines 56-75): on RequestRedirect set
status 302, add a `location` header and send a finishing informational
body; on MethodNotAllowed set status 405 and send an empty finishing body;
on NotFound send a finishing `"Not Found"` body (no status set); on a
successful match look the handler up by endpoint (a missing endpoint would
be a KeyError), invoke it, and if the result is an HttpResponse bind it to
the connection and await it. -/
def Router.call (r : Router) (sem : HandlerSem) (outcome : MatchOutcome)
    (c : Connection) : Except String Connection :=
  match outcome with
  | MatchOutcome.redirect new_url =>
    let c := { c with resp_status_code := some 302 }
    let c := put_resp_header c "location" new_url
    Connection.send c ("redirecting to: " ++ new_url) true
  | MatchOutcome.methodNotAllowed =>
    Connection.send { c with resp_status_code := some 405 } "" true
  | MatchOutcome.notFound => Connection.send c "Not Found" true
  | MatchOutcome.success endpoint args =>
    match dictGet r.endpoint_to_handler endpoint with
    | none => Except.error ("KeyError: " ++ endpoint)
    | some handler => do
      let res ← sem handler args c
      match res.2 with
      | some resp => HttpResponse.await' { resp with connection := some res.1 }
      | none => Except.ok res.1

/-- A dispatch stage as consumed by the application composer: a callable
taking the connection (and possibly failing with an exception). -/
abbrev Stage := Connection → Except String Connection

/-- The loop body of the `asgi_app` closure returned by `Servitor`
(application.py lines 9-17): invoke each stage in order, returning as soon
as the connection is finished; once all stages ran, finish a started
connection, and for a never-started connection set status 404 and send a
finishing `"Not found"` body. -/
def servitor_loop : List Stage → Connection → Except String Connection
  | [], conn =>
    if conn.started then Connection.finish conn
    else Connection.send { conn with resp_status_code := some 404 } "Not found" true
  | router :: rest, conn => do
    let conn ← router conn
    if conn.finished then Except.ok conn else servitor_loop rest conn

/-- `Servitor(*routers)` applied to one inbound exchange (application.py
lines 6-19): construct a fresh Connection from the scope and the I/O
handles and run the stage loop. -/
def Servitor (routers : List Stage) (scope : Scope) : Except String Connection :=
  servitor_loop routers (Connection.fresh scope)

/-- Example no-op stage: returns the connection unchanged. -/
def exIdStage : Stage := fun c => Except.ok c

/-- Example finishing stage: a single finishing send of "x". -/
def exFinishStage : Stage := fun c => Connection.send c "x" true

/-- The connection produced by `exFinishStage` on a fresh scope0
connection. -/
def exFinishedConn : Connection :=
  { Connection.fresh scope0 with
    started := true
    finished := true
    resp_headers := [("content-length", "1")]
    resp_status_code := some 200
    events := [OutEvent.responseStart 200 [("content-length", "1")],
      OutEvent.responseBody "x" true, OutEvent.responseBody "" false] }

/-- Value of a hexadecimal digit character, if it is one. -/
def hexVal (ch : Char) : Option Nat :=
  if '0' ≤ ch ∧ ch ≤ '9' then some (ch.toNat - '0'.toNat)
  else if 'a' ≤ ch ∧ ch ≤ 'f' then some (ch.toNat - 'a'.toNat + 10)
  else if 'A' ≤ ch ∧ ch ≤ 'F' then some (ch.toNat - 'A'.toNat + 10)
  else none

/-- Percent-decoding as in `urllib.parse.unquote` (standard library,
external per the spec): each `%` followed by two hex digits becomes the
byte with that value; a `%` not followed by two hex digits is kept
verbatim.  The claims use ASCII data, where byte-level and
character-level decoding coincide. -/
def percentDecode : List Char → List Char
  | [] => []
  | '%' :: a :: b :: rest =>
    match hexVal a, hexVal b with
    | some x, some y => Char.ofNat (16 * x + y) :: percentDecode rest
    | _, _ => '%' :: percentDecode (a :: b :: rest)
  | '%' :: rest => '%' :: percentDecode rest
  | ch :: rest => ch :: percentDecode rest

/-- The `.replace('+', ' ')` step shared by `unquote_plus` and
`parse_qsl`'s per-field decoding. -/
def plusToSpace (cs : List Char) : List Char :=
  cs.map (fun ch => if ch = '+' then ' ' else ch)

/-- `urllib.parse.unquote_plus`: replace `+` by space, then
percent-decode. -/
def unquote_plus (s : String) : String :=
  String.mk (percentDecode (plusToSpace s.data))

/-- Python `str.split('&')`: split on every separator, keeping empty
pieces (so `"".split('&') == [""]` and `"a&&b".split('&') == ["a","","b"]`). -/
def splitAmp : List Char → List (List Char)
  | [] => [[]]
  | ch :: rest =>
    if ch = '&' then [] :: splitAmp rest
    else
      match splitAmp rest with
      | [] => [[ch]]
      | piece :: more => (ch :: piece) :: more

/-- Python `str.split("=", 1)` restricted to the information `parse_qsl`
needs: the part before the first `=` and the part after it, or `none` when
the string contains no `=`. -/
def splitFirstEq : List Char → Option (List Char × List Char)
  | [] => none
  | ch :: rest =>
    if ch = '=' then some ([], rest)
    else
      match splitFirstEq rest with
      | some p => some (ch :: p.1, p.2)
      | none => none

/-- `urllib.parse.parse_qsl` with default arguments (standard library,
external per the spec): split the query string on `&`; skip empty
fragments, fragments without `=`, and fragments with an empty value
(`keep_blank_values` is false); for each kept pair decode name and value
with `+`-to-space plus percent-decoding. -/
def parse_qsl (qs : String) : List (String × String) :=
  (splitAmp qs.data).filterMap (fun nv =>
    if nv = [] then none
    else
      match splitFirstEq nv with
      | none => none
      | some p =>
        if p.2 = [] then none
        else some (String.mk (percentDecode (plusToSpace p.1)),
          String.mk (percentDecode (plusToSpace p.2))))

/-- `Connection.query` (connection.py line 110, cached property):
`MultiDict(parse_qsl(unquote_plus(scope["query_string"].decode())))` — the
raw query string is percent-decoded (with `+` as space) BEFORE being split
into pairs, and `parse_qsl` decodes each field again.  The MultiDict keeps
the parsed pairs in order. -/
def Connection.query (c : Connection) : List (String × String) :=
  parse_qsl (unquote_plus c.scope.query_string)

/-- Python `int(s)` on the canonical decimal strings used for
`content-length` values (surrounding whitespace and signs, which `int`
also accepts, do not occur here). -/
def parseNat? (cs : List Char) : Option Nat :=
  if cs = [] then none
  else if cs.all (fun ch => '0' ≤ ch ∧ ch ≤ '9') then
    some (cs.foldl (fun acc ch => 10 * acc + (ch.toNat - '0'.toNat)) 0)
  else none

/-- `int(req_headers.get("content-length", "0"))` unless
`transfer-encoding` is `chunked`, in which case no length ceiling exists
(connection.py lines 218-222).  A malformed integer would raise, like
Python's `int`. -/
def req_body_length (c : Connection) : Except String (Option Nat) :=
  if headersGet (Connection.req_headers c) "transfer-encoding" = some "chunked" then
    Except.ok none
  else
    match parseNat? ((headersGet (Connection.req_headers c) "content-length").getD "0").data with
    | some n => Except.ok (some n)
    | none => Except.error "invalid literal for int()"

/-- `if req_body_length and self.http_received_body_length > req_body_length`
(connection.py line 224): Python truthiness makes both `None` (chunked)
and `0` (header absent or "0") disable the check. -/
def length_guard (limit : Option Nat) (received : Nat) : Bool :=
  match limit with
  | none => false
  | some n => if n = 0 then false else if received > n then true else false

/-- Result of driving the `body_iter` generator against a list of pending
inbound events: it either completed (`more_body` became false), raised
(`failed`, with the chunks yielded before the failure), or exhausted the
supplied events while still expecting more body (`pending`, i.e. the
generator would suspend awaiting `asgi_receive`). -/
inductive IterResult where
  | done (chunks : List String) (c : Connection)
  | failed (msg : String) (chunks : List String) (c : Connection)
  | pending (chunks : List String) (c : Connection)
deriving DecidableEq

/-- Whether the iteration raised. -/
def IterResult.isFailure : IterResult → Bool
  | IterResult.failed _ _ _ => true
  | _ => false

/-- The chunks yielded (before any failure). -/
def IterResult.chunks : IterResult → List String
  | IterResult.done ch _ => ch
  | IterResult.failed _ ch _ => ch
  | IterResult.pending ch _ => ch

/-- The `while self.http_has_more_body` loop of `body_iter`
(connection.py lines 223-238), with `acc` holding the yielded chunks in
reverse: while more body is expected, first fail if the length guard
fires, then take the next inbound event — disconnects raise, non-request
events are ignored, and a request event has its chunk appended to the
body accumulator, updates the more-body flag and received count, and is
yielded. -/
def body_iter_loop : Option Nat → List InEvent → Connection → List String → IterResult
  | limit, msgs, c, acc =>
    if c.http_has_more_body = false then IterResult.done acc.reverse c
    else if length_guard limit c.http_received_body_length then
      IterResult.failed "body is longer than declared" acc.reverse c
    else
      match msgs with
      | [] => IterResult.pending acc.reverse c
      | InEvent.disconnect :: _ => IterResult.failed "Disconnected" acc.reverse c
      | InEvent.other :: rest => body_iter_loop limit rest c acc
      | InEvent.request b more :: rest =>
        body_iter_loop limit rest
          { c with
            http_body := c.http_body ++ b
            http_has_more_body := more
            http_received_body_length := c.http_received_body_length + b.length }
          (b :: acc)

/-- `Connection.body_iter` (connection.py lines 202-238): fails for
non-HTTP connections and for an unfinished in-progress iteration; a
previously completed iteration re-yields the buffered body once; then the
declared-length ceiling is computed and the receive loop runs against the
pending inbound events. -/
def body_iter (c : Connection) (msgs : List InEvent) : IterResult :=
  if Connection.type c ≠ ConnectionType.HTTP then
    IterResult.failed "connection type is not HTTP" [] c
  else if c.http_received_body_length > 0 ∧ c.http_has_more_body then
    IterResult.failed "body iter is already started and is not finished" [] c
  else
    let pre : List String :=
      if c.http_received_body_length > 0 ∧ ¬ c.http_has_more_body then [c.http_body]
      else []
    match req_body_length c with
    | Except.error e => IterResult.failed e pre c
    | Except.ok limit => body_iter_loop limit msgs c pre.reverse

/-- Fresh connection with a `content-length: 3` request header. -/
def connCL3 : Connection :=
  Connection.fresh
    { type := "http", method := "POST", path := "/", query_string := ""
      headers := [("content-length", "3")] }

/-- Fresh connection with no `content-length` request header. -/
def connNoCL : Connection :=
  Connection.fresh
    { type := "http", method := "POST", path := "/", query_string := ""
      headers := [] }

/-- Fresh connection with a `content-length: 0` request header. -/
def connCL0 : Connection :=
  Connection.fresh
    { type := "http", method := "POST", path := "/", query_string := ""
      headers := [("content-length", "0")] }

/-- All events in the list are body-delivery (`http.request`) events. -/
def allRequests (msgs : List InEvent) : Bool :=
  msgs.all (fun m =>
    match m with
    | InEvent.request _ _ => true
    | _ => false)

/-- C7: calling send("abc", finish=true) on a fresh HTTP connection emits
exactly: a response-start event with status 200 whose headers include
`content-length: 3`, then a body chunk `"abc"` with more-body true, then
the finishing empty body chunk with more-body false. -/
theorem C7_send_finish_trace (scope : Scope) (h : scope.type ≠ "websocket") :
    (Connection.send (Connection.fresh scope) "abc" true).map
        (fun c => (c.events, c.finished)) =
      Except.ok
        ([OutEvent.responseStart 200 [("content-length", "3")],
          OutEvent.responseBody "abc" true,
          OutEvent.responseBody "" false], true) := by
  simp [Connection.send, Connection.fresh, Connection.type, http_send,
    Connection.finish, start_resp, put_resp_header, emitBody, Bind.bind,
    Except.bind, Except.map, h]
  rfl

/-- C7 witness: the theorem applied at a concrete scope. -/
theorem C7_send_finish_trace_witness :
    (Connection.send (Connection.fresh scope0) "abc" true).map
        (fun c => (c.events, c.finished)) =
      Except.ok
        ([OutEvent.responseStart 200 [("content-length", "3")],
          OutEvent.responseBody "abc" true,
          OutEvent.responseBody "" false], true) :=
  C7_send_finish_trace scope0 (by decide)

/-- C8: calling finish() on a fresh HTTP connection with no status code set
emits a response-start event with status 204 followed by an empty body
chunk with more-body false, and marks the connection finished. -/
theorem C8_early_finish (scope : Scope) (h : scope.type ≠ "websocket") :
    (Connection.finish (Connection.fresh scope)).map
        (fun c => (c.events, c.finished, c.resp_status_code)) =
      Except.ok
        ([OutEvent.responseStart 204 [], OutEvent.responseBody "" false],
          true, some 204) := by
  simp [Connection.finish, Connection.fresh, Connection.type, start_resp, emitBody,
    Bind.bind, Except.bind, Except.map, h]

/-- C8 witness: the theorem applied at a concrete scope. -/
theorem C8_early_finish_witness :
    (Connection.finish (Connection.fresh scope0)).map
        (fun c => (c.events, c.finished, c.resp_status_code)) =
      Except.ok
        ([OutEvent.responseStart 204 [], OutEvent.responseBody "" false],
          true, some 204) :=
  C8_early_finish scope0 (by decide)

/-- Folding `put_resp_header` over a header list changes only
`resp_headers`: the started/finished flags, the status code, the event
trace and the scope are untouched. -/
theorem foldPut_fields (hs : List (String × String)) (c : Connection) :
    (hs.foldl (fun a kv => put_resp_header a kv.1 kv.2) c).started = c.started
    ∧ (hs.foldl (fun a kv => put_resp_header a kv.1 kv.2) c).finished = c.finished
    ∧ (hs.foldl (fun a kv => put_resp_header a kv.1 kv.2) c).resp_status_code =
        c.resp_status_code
    ∧ (hs.foldl (fun a kv => put_resp_header a kv.1 kv.2) c).events = c.events
    ∧ (hs.foldl (fun a kv => put_resp_header a kv.1 kv.2) c).scope = c.scope := by
  induction hs generalizing c with
  | nil => exact ⟨rfl, rfl, rfl, rfl, rfl⟩
  | cons kv t ih => simpa [put_resp_header] using ih (put_resp_header c kv.1 kv.2)

/-- A finishing send on a started, unfinished HTTP connection only appends
the two body events and sets the finished flag: the start branch is
skipped entirely. -/
theorem send_on_started (c : Connection) (data : String)
    (hs : c.started = true) (hf : c.finished = false)
    (ht : c.scope.type ≠ "websocket") :
    Connection.send c data true =
      Except.ok
        { c with
          finished := true
          events := c.events ++
            [OutEvent.responseBody data true, OutEvent.responseBody "" false] } := by
  simp [Connection.send, Connection.type, http_send, Connection.finish, emitBody,
    Bind.bind, Except.bind, hs, hf, ht]

/-- C1 (code bug): constructed without a `headers` keyword argument, a
JsonResponse applied to a fresh connection produces a response whose
header map is only the auto-set `content-length` — no
`content-type: application/json` is present, because the freshly built
header dict never reaches `HttpResponse.__init__`.  When a `headers` dict
IS passed, the content-type key is set (and other keys preserved), showing
the intent the no-argument path fails to meet. -/
theorem C1_json_content_type_dropped :
    (HttpResponse.await'
        (JsonResponse "[1]" (some (Connection.fresh scope0)) 200 none)).map
        (fun c => (c.resp_headers, c.events)) =
      Except.ok
        ([("content-length", "3")],
          [OutEvent.responseStart 200 [("content-length", "3")],
            OutEvent.responseBody "[1]" true,
            OutEvent.responseBody "" false])
    ∧ (JsonResponse "[1]" (some (Connection.fresh scope0)) 200 none).headers = none
    ∧ (JsonResponse "[1]" (some (Connection.fresh scope0)) 200
        (some [("x-trace", "1")])).headers =
        some [("x-trace", "1"), ("content-type", "application/json")] :=
  ⟨rfl, rfl, rfl⟩

/-- C4 counterexample: send("x") starts a fresh connection with a
response-start event carrying status 200, yet applying an HttpResponse
with status 500 to that already-started connection changes the
connection's response status code to 500 — so the status code field is not
immutable after the response is started, contrary to the claim. -/
theorem C4_counterexample :
    ((Connection.send (Connection.fresh scope0) "x" false).bind (fun c1 =>
        (HttpResponse.await'
            { body := "y", connection := some c1, status_code := 500,
              headers := none }).map
          (fun c2 => (c1.started, c1.resp_status_code, c1.events,
            c2.resp_status_code)))) =
      Except.ok
        (true, some 200,
          [OutEvent.responseStart 200 [], OutEvent.responseBody "x" true],
          some 500) := rfl

/-- C4 amended: once a response is started no further response-start event
can be emitted (`start_resp` fails), so the wire-visible status is fixed;
but the `resp_status_code` field itself is not immutable: applying an
HttpResponse to an already-started (unfinished, HTTP) connection
overwrites the field with the response's status code while appending only
body events to the trace. -/
theorem C4_amended :
    (∀ c : Connection, c.started = true →
        start_resp c = Except.error "resp already started")
    ∧ (∀ (c : Connection) (v : HttpResponse),
        v.connection = some c → c.started = true → c.finished = false →
        c.scope.type ≠ "websocket" →
        (HttpResponse.await' v).map (fun c2 => (c2.resp_status_code, c2.events)) =
          Except.ok (some v.status_code,
            c.events ++
              [OutEvent.responseBody v.body true, OutEvent.responseBody "" false])) := by
  constructor
  · intro c hc
    simp [start_resp, hc]
  · intro c v hconn hs hf ht
    obtain ⟨f1, f2, f3, f4, f5⟩ :=
      foldPut_fields (v.headers.getD []) { c with resp_status_code := some v.status_code }
    simp only [HttpResponse.await', hconn]
    rw [send_on_started _ v.body (by rw [f1]; exact hs) (by rw [f2]; exact hf)
      (by rw [f5]; exact ht)]
    simp [Except.map, f3, f4]

/-- C4 amended witness: the theorem applied at a concrete started
connection and a concrete HttpResponse with status 500. -/
theorem C4_amended_witness :
    start_resp exStartedConn = Except.error "resp already started"
    ∧ (HttpResponse.await'
          { body := "y"
            connection := some exStartedConn
            status_code := 500
            headers := none }).map (fun c2 => (c2.resp_status_code, c2.events)) =
        Except.ok (some 500,
          exStartedConn.events ++
            [OutEvent.responseBody "y" true, OutEvent.responseBody "" false]) :=
  ⟨C4_amended.1 exStartedConn rfl,
    C4_amended.2 exStartedConn
      { body := "y", connection := some exStartedConn, status_code := 500,
        headers := none } rfl rfl rfl (by decide)⟩

/-- C3 counterexample: registering handler A under name "x" and then
re-registering the identical handler A under "x" again succeeds, but it is
not a no-op on the router's state: the pattern map grows from one rule to
two (a duplicate rule is appended), contradicting the claim that the
pattern map is unchanged by the second registration. -/
theorem C3_counterexample :
    ((add_route Router.init "/a" { id := 0, name := "a" } (some "x") none).bind
        (fun r1 =>
          (add_route r1 "/a" { id := 0, name := "a" } (some "x") none).map
            (fun r2 => (r1.url_map.length, r2.url_map.length)))) =
      Except.ok (1, 2) := rfl

/-- C3 amended: registering a different handler under an occupied route
name fails with the Conflict error; re-registering the identical handler
under the same name succeeds with no error and leaves the name-to-handler
map unchanged, but it appends a duplicate rule to the pattern map (it is
not a complete no-op on the router's state). -/
theorem C3_amended (A B : Handler) (rs1 rs2 : String) (hAB : A ≠ B) :
    ∃ r1 r2 : Router,
      add_route Router.init rs1 A (some "x") none = Except.ok r1
      ∧ add_route r1 rs2 B (some "x") none =
          Except.error "Duplicated route name: x"
      ∧ add_route r1 rs2 A (some "x") none = Except.ok r2
      ∧ r2.endpoint_to_handler = r1.endpoint_to_handler
      ∧ r2.url_map = r1.url_map ++
          [{ rule_string := rs2, endpoint := "x", methods := none }] := by
  refine
    ⟨{ url_map := [{ rule_string := rs1, endpoint := "x", methods := none }]
       endpoint_to_handler := [("x", A)] },
      { url_map := [{ rule_string := rs1, endpoint := "x", methods := none },
          { rule_string := rs2, endpoint := "x", methods := none }]
        endpoint_to_handler := [("x", A)] },
      ?_, ?_, ?_, ?_, ?_⟩
  · simp [add_route, Router.init, dictGet, dictSet]
  · simp [add_route, dictGet, List.find?, hAB]
  · simp [add_route, dictGet, dictSet, List.find?, List.any]
  · rfl
  · rfl

/-- C3 amended witness: the theorem applied at two concrete distinct
handlers. -/
theorem C3_amended_witness :
    ∃ r1 r2 : Router,
      add_route Router.init "/a" { id := 0, name := "a" } (some "x") none =
        Except.ok r1
      ∧ add_route r1 "/b" { id := 1, name := "b" } (some "x") none =
          Except.error "Duplicated route name: x"
      ∧ add_route r1 "/b" { id := 0, name := "a" } (some "x") none = Except.ok r2
      ∧ r2.endpoint_to_handler = r1.endpoint_to_handler
      ∧ r2.url_map = r1.url_map ++
          [{ rule_string := "/b", endpoint := "x", methods := none }] :=
  C3_amended { id := 0, name := "a" } { id := 1, name := "b" } "/a" "/b" (by decide)

/-- C5: router dispatch of a not-found match outcome on a fresh HTTP
connection sends the finishing "Not Found" body without setting any status
code, so the response-start event carries the default status 200: the
trace is start(200, content-length: 9), body("Not Found", more=true),
body("", more=false). -/
theorem C5_notfound_default_200 (r : Router) (sem : HandlerSem) (scope : Scope)
    (h : scope.type ≠ "websocket") :
    (Router.call r sem MatchOutcome.notFound (Connection.fresh scope)).map
        (fun c => (c.events, c.resp_status_code)) =
      Except.ok
        ([OutEvent.responseStart 200 [("content-length", "9")],
          OutEvent.responseBody "Not Found" true,
          OutEvent.responseBody "" false], some 200) := by
  simp [Router.call, Connection.send, Connection.fresh, Connection.type, http_send,
    Connection.finish, start_resp, put_resp_header, emitBody, Bind.bind,
    Except.bind, Except.map, h]
  rfl

/-- C5 witness: the theorem applied at a concrete router, handler
semantics and scope. -/
theorem C5_notfound_default_200_witness :
    (Router.call Router.init (fun _ _ c => Except.ok (c, none))
          MatchOutcome.notFound (Connection.fresh scope0)).map
        (fun c => (c.events, c.resp_status_code)) =
      Except.ok
        ([OutEvent.responseStart 200 [("content-length", "9")],
          OutEvent.responseBody "Not Found" true,
          OutEvent.responseBody "" false], some 200) :=
  C5_notfound_default_200 Router.init (fun _ _ c => Except.ok (c, none)) scope0
    (by decide)

/-- C6: the application composer invokes its stages in order and stops
right after the first stage that leaves the connection finished (later
stages never run); after all stages, a started-but-unfinished connection
is finished, and a never-started connection gets status 404 and a
finishing send of "Not found" (start event with status 404 and
content-length 9, body "Not found", final empty body). -/
theorem C6_servitor :
    (∀ (s : Stage) (rest : List Stage) (c c2 : Connection),
        s c = Except.ok c2 → c2.finished = true →
        servitor_loop (s :: rest) c = Except.ok c2)
    ∧ (∀ (s : Stage) (rest : List Stage) (c c2 : Connection),
        s c = Except.ok c2 → c2.finished = false →
        servitor_loop (s :: rest) c = servitor_loop rest c2)
    ∧ (∀ c : Connection, c.started = true →
        servitor_loop [] c = Connection.finish c)
    ∧ (∀ c : Connection, c.started = false → c.finished = false →
        c.scope.type ≠ "websocket" →
        (servitor_loop [] c).map (fun c2 => (c2.resp_status_code, c2.events)) =
          Except.ok (some 404,
            c.events ++
              [OutEvent.responseStart 404
                  ((c.resp_headers ++ [("content-length", "9")]) ++
                    c.resp_cookies.map (fun kv => ("Set-Cookie", kv.1 ++ "=" ++ kv.2))),
                OutEvent.responseBody "Not found" true,
                OutEvent.responseBody "" false])) := by
  refine ⟨?_, ?_, ?_, ?_⟩
  · intro s rest c c2 h1 h2
    simp [servitor_loop, h1, h2, Bind.bind, Except.bind]
  · intro s rest c c2 h1 h2
    simp [servitor_loop, h1, h2, Bind.bind, Except.bind]
  · intro c h
    simp [servitor_loop, h]
  · intro c h1 h2 h3
    simp [servitor_loop, Connection.send, Connection.type, http_send,
      Connection.finish, start_resp, put_resp_header, emitBody, Bind.bind,
      Except.bind, Except.map, h1, h2, h3]
    rfl

/-- C6 witness: the four parts of the theorem applied at concrete stages
and connections. -/
theorem C6_witness :
    servitor_loop [exFinishStage, exIdStage] (Connection.fresh scope0) =
      Except.ok exFinishedConn
    ∧ servitor_loop [exIdStage, exFinishStage] (Connection.fresh scope0) =
        servitor_loop [exFinishStage] (Connection.fresh scope0)
    ∧ servitor_loop [] exStartedConn = Connection.finish exStartedConn
    ∧ (servitor_loop [] (Connection.fresh scope0)).map
        (fun c2 => (c2.resp_status_code, c2.events)) =
      Except.ok (some 404,
        [OutEvent.responseStart 404 [("content-length", "9")],
          OutEvent.responseBody "Not found" true,
          OutEvent.responseBody "" false]) :=
  ⟨C6_servitor.1 exFinishStage [exIdStage] (Connection.fresh scope0)
      exFinishedConn rfl rfl,
    C6_servitor.2.1 exIdStage [exFinishStage] (Connection.fresh scope0)
      (Connection.fresh scope0) rfl rfl,
    C6_servitor.2.2.1 exStartedConn rfl,
    C6_servitor.2.2.2 (Connection.fresh scope0) rfl rfl (by decide)⟩

/-- C9: the query accessor percent-decodes the raw query string before
splitting on `&`/`=`, so the query string `a=1%26b%3D2` parses to TWO
parameters, `a` mapped to "1" and `b` mapped to "2" — not to a single
parameter `a` mapped to "1&b=2". -/
theorem C9_query_double_decode :
    Connection.query
        (Connection.fresh
          { type := "http", method := "GET", path := "/"
            query_string := "a=1%26b%3D2", headers := [] }) =
      [("a", "1"), ("b", "2")] := by decide

/-- C2 counterexample: with a declared content-length of 3 and two
body-delivery events of 3 and then 2 bytes (totaling 5, more_body finally
false), body_iter does NOT fail: both chunks — including the over-limit
second one — are yielded and the iteration completes, because the length
check only runs while more body is still expected. -/
theorem C2_counterexample :
    (body_iter connCL3
        [InEvent.request "abc" true, InEvent.request "de" false]).isFailure = false
    ∧ (body_iter connCL3
        [InEvent.request "abc" true, InEvent.request "de" false]).chunks =
        ["abc", "de"] :=
  ⟨rfl, rfl⟩

/-- C2 amended: with a declared content-length of 3 and two body-delivery
events (first with more_body true, second with more_body false), body_iter
fails with "body is longer than declared" exactly when the FIRST chunk
alone already exceeds 3 bytes; in that case the over-limit first chunk has
already been yielded and the second event is never consumed (only the
first chunk appears in the yielded list).  When the first chunk is within
the limit, both chunks are yielded and no failure occurs even if the total
exceeds 3. -/
theorem C2_amended (a b : String) :
    ((body_iter connCL3
        [InEvent.request a true, InEvent.request b false]).isFailure = true
      ↔ 3 < a.length)
    ∧ (body_iter connCL3
        [InEvent.request a true, InEvent.request b false]).chunks =
        (if 3 < a.length then [a] else [a, b]) := by
  have h0 : body_iter connCL3 [InEvent.request a true, InEvent.request b false] =
      body_iter_loop (some 3) [InEvent.request a true, InEvent.request b false]
        connCL3 [] := rfl
  rw [h0]
  by_cases h : 3 < a.length
  · simp [body_iter_loop, length_guard, connCL3, Connection.fresh, h,
      IterResult.isFailure, IterResult.chunks]
  · simp [body_iter_loop, length_guard, connCL3, Connection.fresh, h,
      IterResult.isFailure, IterResult.chunks]

/-- With a length ceiling of 0 — Python treats 0 as falsy, so the guard
never fires — the receive loop never fails on any stream of body-delivery
events. -/
theorem body_iter_loop_zero_no_fail (msgs : List InEvent) :
    ∀ (c : Connection) (acc : List String), allRequests msgs = true →
      (body_iter_loop (some 0) msgs c acc).isFailure = false := by
  induction msgs with
  | nil =>
    intro c acc _
    by_cases hm : c.http_has_more_body = false
    · simp [body_iter_loop, hm, IterResult.isFailure]
    · simp [body_iter_loop, hm, length_guard, IterResult.isFailure]
  | cons m rest ih =>
    intro c acc hall
    cases m with
    | request b more =>
      simp [allRequests] at hall
      by_cases hm : c.http_has_more_body = false
      · simp [body_iter_loop, hm, IterResult.isFailure]
      · simp [body_iter_loop, hm, length_guard]
        exact ih _ _ (by simpa [allRequests] using hall)
    | disconnect => simp [allRequests] at hall
    | other => simp [allRequests] at hall

/-- C10: with the `content-length` request header absent, or equal to "0",
the declared-length ceiling is 0, which Python truthiness disables exactly
like the chunked case — body_iter accepts body-delivery events of any
total length without ever failing. -/
theorem C10_zero_disables_limit (msgs : List InEvent)
    (h : allRequests msgs = true) :
    (body_iter connNoCL msgs).isFailure = false
    ∧ (body_iter connCL0 msgs).isFailure = false := by
  have h1 : body_iter connNoCL msgs = body_iter_loop (some 0) msgs connNoCL [] := rfl
  have h2 : body_iter connCL0 msgs = body_iter_loop (some 0) msgs connCL0 [] := rfl
  rw [h1, h2]
  exact ⟨body_iter_loop_zero_no_fail msgs connNoCL [] h,
    body_iter_loop_zero_no_fail msgs connCL0 [] h⟩

/-- C10 witness: the theorem applied to two body-delivery events totaling
6 bytes (more than any declared length) on both connections. -/
theorem C10_zero_disables_limit_witness :
    (body_iter connNoCL
        [InEvent.request "aaaa" true, InEvent.request "bb" false]).isFailure = false
    ∧ (body_iter connCL0
        [InEvent.request "aaaa" true, InEvent.request "bb" false]).isFailure = false :=
  C10_zero_disables_limit
    [InEvent.request "aaaa" true, InEvent.request "bb" false] (by decide)
